import Mathlib

/-!
Verification of `direct/src/tkpanels/Inspector.py`: a shallow embedding of the
object-inspector module (type registry, the `Inspector` class family, and the
`InspectorWindow` navigation state machine), together with theorems settling
the specification claims about it.

Modelling conventions:
* A Python object is modelled by `PyObj`: its type name (`type(o).__name__`),
  its `str()` form, whether it is callable, its attribute table (what
  `getattr`/`dir` see), its mapping items (the key/value pairs of a dict, also
  used for the `__dict__` namespace of a class object), and its sequence
  elements.  Dictionary keys are string keys or integer keys (`PartId`): two
  mutually unorderable kinds, enough to express both homogeneous key sets
  (which Python 3 `sorted` orders) and mixed ones (on which it raises
  `TypeError`).
* Operations that can raise in Python (`getattr`, `[]`-indexing, `sorted` on
  mixed keys, and hence `Inspector.__init__` and `inspectorFor`) return
  `Option`; `none` is the raised exception.
* Methods that mutate `self` are state-passing: they return the updated
  structure alongside their result.  An uncaught exception escaping a handler
  is the `Option PyErr` component of the result.
* `sorted` on strings is insertion sort by code point (`strRel`), matching
  Python's lexicographic string order.
-/

/-- `str.capitalize()`: first character uppercased, the rest lowercased. -/
def pyCapitalize (s : String) : String :=
  match s.data with
  | [] => ""
  | c :: cs => String.mk (c.toUpper :: cs.map Char.toLower)

/-- Code-point comparison of character lists (Python string `<=`). -/
def charsLe : List Char → List Char → Bool
  | [], _ => true
  | _ :: _, [] => false
  | c :: cs, d :: ds =>
    if c.toNat < d.toNat then true
    else if d.toNat < c.toNat then false
    else charsLe cs ds

/-- Python string `<=` (lexicographic by code point). -/
def strLe (a b : String) : Bool := charsLe a.data b.data

/-- `strLe` as a decidable relation, so Mathlib's sorting theory applies. -/
def strRel (a b : String) : Prop := strLe a b = true

instance : DecidableRel strRel := fun a b => by
  unfold strRel; infer_instance

/-- Python `sorted` on a list of strings. -/
def pySorted (l : List String) : List String := List.insertionSort strRel l

/-- An entry of an inspector's `_partsList`, and likewise the type of a
dictionary key: an attribute/key name (a Python string), or an integer (a
sequence index appended by `SequenceInspector.initializePartsList`, or an
integer dictionary key).  Two kinds suffice to express both homogeneous
(sortable) key sets and the mixed ones on which Python 3 `sorted` raises
`TypeError`; any further hashable key type behaves like one more mutually
unorderable kind. -/
inductive PartId where
  | name (s : String)
  | idx (n : Nat)
deriving DecidableEq

/-- `str(each)` on a parts-list entry. -/
def partIdStr : PartId → String
  | .name s => s
  | .idx n => toString n

/-- Whether a key is a string key. -/
def PartId.isName : PartId → Bool
  | .name _ => true
  | .idx _ => false

/-- Whether a key is an integer key. -/
def PartId.isIdx : PartId → Bool
  | .name _ => false
  | .idx _ => true

/-- The ordering Python `sorted` uses on a homogeneous key list: integers by
`≤`, strings by code point.  The cross-kind arms are never consulted on the
homogeneous lists `pySortedKeys` sorts; they are fixed (integers first) only
so that the relation is total and transitive. -/
def partKeyLe : PartId → PartId → Bool
  | .idx a, .idx b => decide (a ≤ b)
  | .name a, .name b => strLe a b
  | .idx _, .name _ => true
  | .name _, .idx _ => false

/-- `partKeyLe` as a decidable relation. -/
def partKeyRel (a b : PartId) : Prop := partKeyLe a b = true

instance : DecidableRel partKeyRel := fun a b => by
  unfold partKeyRel; infer_instance

/-- Python 3 `sorted(self.object)` over a dict's keys: comparing an integer
key with a string key raises `TypeError` (`none`) — which happens exactly
when keys of both kinds are present; a homogeneous key list sorts
ascending. -/
def pySortedKeys (l : List PartId) : Option (List PartId) :=
  if l.any PartId.isIdx && l.any PartId.isName then none
  else some (List.insertionSort partKeyRel l)

/-- A Python runtime value, at the granularity the inspector observes it. -/
inductive PyObj where
  | mk (typeName strForm : String) (callable : Bool)
      (attrs : List (String × PyObj)) (items : List (PartId × PyObj))
      (elems : List PyObj)

/-- `type(o).__name__`. -/
def PyObj.typeName : PyObj → String
  | .mk t _ _ _ _ _ => t

/-- `str(o)`. -/
def PyObj.strForm : PyObj → String
  | .mk _ s _ _ _ _ => s

/-- `callable(o)`. -/
def PyObj.callable : PyObj → Bool
  | .mk _ _ c _ _ _ => c

/-- The attribute table: what `getattr` and `dir` observe. -/
def PyObj.attrs : PyObj → List (String × PyObj)
  | .mk _ _ _ a _ _ => a

/-- Mapping items: the key/value pairs of a dict (also models the `__dict__`
namespace of a class object). -/
def PyObj.items : PyObj → List (PartId × PyObj)
  | .mk _ _ _ _ i _ => i

/-- Sequence elements of a list/tuple/string object. -/
def PyObj.elems : PyObj → List PyObj
  | .mk _ _ _ _ _ e => e

/-- `getattr(o, name)`: `none` models the raised `AttributeError`. -/
def pyGetattr (o : PyObj) (name : String) : Option PyObj :=
  (o.attrs.find? (fun kv => kv.1 == name)).map (fun kv => kv.2)

/-- `o[key]` on a mapping: `none` models the raised `KeyError`. -/
def pyDictGet (o : PyObj) (key : PartId) : Option PyObj :=
  (o.items.find? (fun kv => kv.1 == key)).map (fun kv => kv.2)

/-- `key in o` on a mapping. -/
def pyDictContains (o : PyObj) (key : PartId) : Bool :=
  o.items.any (fun kv => kv.1 == key)

/-- `o[i]` on a sequence: `none` models the raised `IndexError`. -/
def pySeqGet (o : PyObj) (i : Nat) : Option PyObj :=
  o.elems.get? i

/-- `dir(o)`: the attribute names of the object. -/
def pyDir (o : PyObj) : List String :=
  o.attrs.map (fun kv => kv.1)

/-- The inspector class selected by the registry (the `globals()` lookup of
the variant name): one tag per class of the module. -/
inductive Variant where
  | Inspector
  | ModuleInspector
  | ClassInspector
  | InstanceInspector
  | FunctionInspector
  | InstanceMethodInspector
  | CodeInspector
  | ComplexInspector
  | DictionaryInspector
  | SequenceInspector
  | SliceInspector
deriving DecidableEq

/-- The `_InspectorMap` built by `initializeInspectorMap`, as the association
list of its entries (the `notFinishedTypes` keys are appended, each mapped to
the base `'Inspector'`). -/
def inspectorMap : List (String × String) :=
  [("Builtin_function_or_methodType", "FunctionInspector"),
   ("BuiltinFunctionType", "FunctionInspector"),
   ("BuiltinMethodType", "FunctionInspector"),
   ("ClassType", "ClassInspector"),
   ("CodeType", "CodeInspector"),
   ("ComplexType", "Inspector"),
   ("DictionaryType", "DictionaryInspector"),
   ("DictType", "DictionaryInspector"),
   ("FileType", "Inspector"),
   ("FloatType", "Inspector"),
   ("FunctionType", "FunctionInspector"),
   ("Instance methodType", "InstanceMethodInspector"),
   ("InstanceType", "InstanceInspector"),
   ("IntType", "Inspector"),
   ("LambdaType", "Inspector"),
   ("ListType", "SequenceInspector"),
   ("LongType", "Inspector"),
   ("MethodType", "FunctionInspector"),
   ("ModuleType", "ModuleInspector"),
   ("NoneType", "Inspector"),
   ("SliceType", "SliceInspector"),
   ("StringType", "SequenceInspector"),
   ("TupleType", "SequenceInspector"),
   ("TypeType", "Inspector"),
   ("UnboundMethodType", "FunctionInspector"),
   ("BufferType", "Inspector"),
   ("EllipsisType", "Inspector"),
   ("FrameType", "Inspector"),
   ("TracebackType", "Inspector"),
   ("XRangeType", "Inspector")]

/-- `typeName in _InspectorMap` / `_InspectorMap[typeName]`. -/
def inspectorMapLookup (key : String) : Option String :=
  (inspectorMap.find? (fun kv => kv.1 == key)).map (fun kv => kv.2)

/-- The registry key derived in `inspectorFor`:
`type(anObject).__name__.capitalize() + 'Type'`. -/
def typeKeyFor (typeName : String) : String :=
  pyCapitalize typeName ++ "Type"

/-- The inspector class name chosen by `inspectorFor`: the registry entry, or
the base `'Inspector'` when the key is absent. -/
def inspectorNameForKey (key : String) : String :=
  match inspectorMapLookup key with
  | some n => n
  | none => "Inspector"

/-- `globals()[inspectorName]`: the class denoted by a registry value.  Every
value stored in `_InspectorMap` is one of the class names of the module. -/
def variantOfName (n : String) : Variant :=
  if n == "ModuleInspector" then .ModuleInspector
  else if n == "ClassInspector" then .ClassInspector
  else if n == "InstanceInspector" then .InstanceInspector
  else if n == "FunctionInspector" then .FunctionInspector
  else if n == "InstanceMethodInspector" then .InstanceMethodInspector
  else if n == "CodeInspector" then .CodeInspector
  else if n == "ComplexInspector" then .ComplexInspector
  else if n == "DictionaryInspector" then .DictionaryInspector
  else if n == "SequenceInspector" then .SequenceInspector
  else if n == "SliceInspector" then .SliceInspector
  else .Inspector

/-- The name selected for a given `type(o).__name__`. -/
def inspectorNameForTypeName (typeName : String) : String :=
  inspectorNameForKey (typeKeyFor typeName)

/-- `namedParts(self)`, resolved per variant (each subclass override, with the
base `dir(self.object)` for the classes that do not override it).  A class
namespace (`self.object.__dict__`) has string keys in Python, rendered here
through their string form. -/
def namedParts (v : Variant) (o : PyObj) : List String :=
  match v with
  | .ModuleInspector => ["__dict__"]
  | .ClassInspector => "__bases__" :: o.items.map (fun kv => partIdStr kv.1)
  | .InstanceInspector => "__class__" :: pyDir o
  | .ComplexInspector => ["real", "imag"]
  | .SliceInspector => ["start", "stop", "step"]
  | _ => pyDir o

/-- `Inspector.initializePartsList`: the sorted `namedParts`, as part ids. -/
def basePartsList (v : Variant) (o : PyObj) : List PartId :=
  (pySorted (namedParts v o)).map PartId.name

/-- `initializePartsList`, with the `DictionaryInspector` and
`SequenceInspector` overrides (each first runs the base method, then appends
its own entries).  The Dictionary override runs `sorted(self.object)` over
the keys, which raises `TypeError` (`none`) on mixed unorderable keys, so
construction can fail there. -/
def initializePartsList (v : Variant) (o : PyObj) : Option (List PartId) :=
  match v with
  | .DictionaryInspector =>
      (pySortedKeys (o.items.map (fun kv => kv.1))).map
        (fun ks => basePartsList v o ++ ks)
  | .SequenceInspector =>
      some (basePartsList v o ++ (List.range o.elems.length).map PartId.idx)
  | _ => some (basePartsList v o)

/-- An `Inspector` instance: the class it was constructed from, the wrapped
object, the two lists computed by `__init__`, and `lastPartNumber`. -/
@[ext]
structure Inspector where
  variant : Variant
  object : PyObj
  partsList : List PartId
  partNamesList : List String
  lastPartNumber : Nat

/-- `Inspector.__init__` (shared by every subclass): store the object, zero
`lastPartNumber`, then run `initializePartsList` and `initializePartNames`.
`none` models an exception raised during construction (the `TypeError` from
`sorted` in the Dictionary override), escaping to the caller. -/
def mkInspector (v : Variant) (o : PyObj) : Option Inspector :=
  (initializePartsList v o).map fun parts =>
    { variant := v
      object := o
      partsList := parts
      partNamesList := "up" :: parts.map partIdStr
      lastPartNumber := 0 }

/-- `partNames(self)`. -/
def Inspector.partNames (insp : Inspector) : List String :=
  insp.partNamesList

/-- `privatePartNumber(self, partNumber)`: `self._partsList[partNumber - 1]`,
`none` modelling the `IndexError`. -/
def Inspector.privatePartNumber (insp : Inspector) (n : Nat) : Option PartId :=
  insp.partsList.get? (n - 1)

/-- `getattr(self.object, part)` where `part` is a parts-list entry: looking
up an integer entry raises `TypeError` (`none`). -/
def getattrPart (o : PyObj) (p : PartId) : Option PyObj :=
  match p with
  | .name s => pyGetattr o s
  | .idx _ => none

/-- `partNumber(self, partNumber)`, dispatched on the class: the base method
for every variant except the `DictionaryInspector`/`SequenceInspector`
overrides.  All three first assign `self.lastPartNumber = partNumber`; the
first component is the mutated `self`, the second the returned value (`none`
models the raised exception). -/
def Inspector.partNumber (insp : Inspector) (n : Nat) : Inspector × Option PyObj :=
  ({ insp with lastPartNumber := n },
   if n = 0 then
     some insp.object
   else
     match insp.privatePartNumber n with
     | none => none
     | some part =>
       match insp.variant with
       | .DictionaryInspector =>
         if pyDictContains insp.object part then pyDictGet insp.object part
         else getattrPart insp.object part
       | .SequenceInspector =>
         match part with
         | .idx i => pySeqGet insp.object i
         | .name s => pyGetattr insp.object s
       | _ => getattrPart insp.object part)

/-- `getLastPartNumber(self)`. -/
def Inspector.getLastPartNumber (insp : Inspector) : Nat :=
  insp.lastPartNumber

/-- `selectedPart(self)`: `self.partNumber(self.getLastPartNumber())`. -/
def Inspector.selectedPart (insp : Inspector) : Inspector × Option PyObj :=
  insp.partNumber insp.getLastPartNumber

/-- The rendering step of `stringForPartNumber`: a callable part with a
truthy `__doc__` gets the doc appended after a newline.  A doc object is
`None` (`none`) or a string object, whose truthiness is nonemptiness of its
string form. -/
def renderPart (o : PyObj) : String :=
  if o.callable then
    match pyGetattr o "__doc__" with
    | some d => if d.strForm = "" then o.strForm else o.strForm ++ "\n" ++ d.strForm
    | none => o.strForm
  else o.strForm

/-- `stringForPartNumber(self, partNumber)`: resolve the part (mutating
`self.lastPartNumber`), then render it. -/
def Inspector.stringForPartNumber (insp : Inspector) (n : Nat) : Inspector × Option String :=
  let r := insp.partNumber n
  (r.1, r.2.map renderPart)

/-- `str(o.__name__)` (empty when the attribute is missing; the inspector
variants that use it only meet objects that carry it). -/
def pyNameStr (o : PyObj) : String :=
  ((pyGetattr o "__name__").map PyObj.strForm).getD ""

/-- `title(self)`: the base capitalized type name, with the per-variant
overrides of `ClassInspector`, `InstanceInspector`, `FunctionInspector`,
`InstanceMethodInspector` and `CodeInspector`. -/
def Inspector.title (insp : Inspector) : String :=
  match insp.variant with
  | .ClassInspector => pyNameStr insp.object ++ " Class"
  | .InstanceInspector =>
      ((pyGetattr insp.object "__class__").map pyNameStr).getD ""
  | .FunctionInspector => pyNameStr insp.object ++ "()"
  | .InstanceMethodInspector =>
      (((pyGetattr insp.object "__self__").bind
          (fun s => pyGetattr s "__class__")).map PyObj.strForm).getD ""
        ++ "." ++ pyNameStr insp.object ++ "()"
  | .CodeInspector => insp.object.strForm
  | _ => pyCapitalize insp.object.typeName

/-- The module-level `inspectorFor`: derive the key, consult the registry
(falling back to the base class), and construct the chosen class on the
object.  `none` models an exception escaping the construction — in this
module only the `TypeError` that `sorted(self.object)` raises in
`DictionaryInspector.initializePartsList` on mixed unorderable keys. -/
def inspectorFor (o : PyObj) : Option Inspector :=
  mkInspector (variantOfName (inspectorNameForTypeName o.typeName)) o

/-- An exception escaping a handler: a failed part resolution
(`AttributeError`/`KeyError`/`IndexError`/`TypeError` from `partNumber`), a
`TypeError` from `sorted` inside `Inspector` construction, or an error
raised by the host `eval` in `evalCommand`. -/
inductive PyErr where
  | partNotFound
  | typeError
  | evalError (msg : String)
deriving DecidableEq

/-- A placeholder inspector for the (never exercised) read of the top of an
empty stack: `self.inspectors[len - 1]` in Python would raise there.  It
equals the base inspector of `None` (empty attribute table). -/
def defaultInspector : Inspector :=
  { variant := .Inspector
    object := PyObj.mk "NoneType" "None" false [] [] []
    partsList := []
    partNamesList := ["up"]
    lastPartNumber := 0 }

/-- An `InspectorWindow`: the stack of inspectors (bottom first, top last) and
the widget state the claims observe — the listbox selection
(`curselection()`), the window title, the value-pane text, and the transcript
of results appended by the command pane. -/
@[ext]
structure InspectorWindow where
  inspectors : List Inspector
  selection : Option Nat
  displayedTitle : String
  displayedText : Option String
  transcript : List String

/-- `InspectorWindow.__init__`: a fresh one-element stack; the widgets are
created only by `open()`. -/
def newWindow (insp : Inspector) : InspectorWindow :=
  { inspectors := [insp]
    selection := none
    displayedTitle := ""
    displayedText := none
    transcript := [] }

/-- `topInspector(self)`: `self.inspectors[len(self.inspectors) - 1]`. -/
def InspectorWindow.topInspector (w : InspectorWindow) : Inspector :=
  w.inspectors.getLastD defaultInspector

/-- `selectedIndex(self)`: the first index of `curselection()`, or `None`. -/
def InspectorWindow.selectedIndex (w : InspectorWindow) : Option Nat :=
  w.selection

/-- Writing back a mutated top inspector (Python mutates it in place). -/
def InspectorWindow.replaceTop (w : InspectorWindow) (insp : Inspector) : InspectorWindow :=
  { w with inspectors := w.inspectors.dropLast ++ [insp] }

/-- `setTitle(self)`: `self.top.title('Inspecting: ' + ...title())`. -/
def InspectorWindow.setTitle (w : InspectorWindow) : InspectorWindow :=
  { w with displayedTitle := "Inspecting: " ++ w.topInspector.title }

/-- `listSelectionChanged(self, event)`: render `stringForPartNumber` of the
selected index (0 when nothing is selected) into the value pane.  The call
mutates the top inspector's `lastPartNumber`; a resolution failure escapes. -/
def InspectorWindow.listSelectionChanged (w : InspectorWindow) :
    InspectorWindow × Option PyErr :=
  let n := w.selectedIndex.getD 0
  let r := w.topInspector.stringForPartNumber n
  let w1 := w.replaceTop r.1
  match r.2 with
  | some s => ({ w1 with displayedText := some s }, none)
  | none => (w1, some .partNotFound)

/-- `update(self)`: recompute the title, refill the list, select the top
inspector's `lastPartNumber`, and re-render the value pane via
`listSelectionChanged` (the remaining body is display-only scrolling). -/
def InspectorWindow.update (w : InspectorWindow) : InspectorWindow × Option PyErr :=
  let w1 := w.setTitle
  let w2 := { w1 with selection := some w1.topInspector.getLastPartNumber }
  w2.listSelectionChanged

/-- `open(self)`: create the views, then `update`.  Only the `update` part
touches the modelled state. -/
def InspectorWindow.openWin (w : InspectorWindow) : InspectorWindow × Option PyErr :=
  w.update

/-- `pop(self)`: only when the stack has more than one entry, drop the top
and `update`. -/
def InspectorWindow.pop (w : InspectorWindow) : InspectorWindow × Option PyErr :=
  if w.inspectors.length > 1 then
    InspectorWindow.update { w with inspectors := w.inspectors.dropLast }
  else (w, none)

/-- `inspectorForSelectedPart(self)`: `None` when nothing is selected;
otherwise resolve the selected part on the top inspector (mutating its
`lastPartNumber`; a resolution failure escapes) and build an inspector for
the resulting value via `Inspector.inspectorFor`, i.e. the module-level
`inspectorFor` — whose construction can itself raise (escaping as
`typeError`). -/
def InspectorWindow.inspectorForSelectedPart (w : InspectorWindow) :
    InspectorWindow × Except PyErr (Option Inspector) :=
  match w.selectedIndex with
  | none => (w, .ok none)
  | some n =>
    let r := w.topInspector.partNumber n
    let w1 := w.replaceTop r.1
    match r.2 with
    | none => (w1, .error .partNotFound)
    | some part =>
      match inspectorFor part with
      | none => (w1, .error .typeError)
      | some insp => (w1, .ok (some insp))

/-- `dive(self)`: push an inspector for the selected part and `update`; a
`None` from `inspectorForSelectedPart` returns without touching the stack;
an exception from it propagates with the stack unchanged. -/
def InspectorWindow.dive (w : InspectorWindow) : InspectorWindow × Option PyErr :=
  match w.inspectorForSelectedPart with
  | (w1, .error e) => (w1, some e)
  | (w1, .ok none) => (w1, none)
  | (w1, .ok (some insp)) =>
      InspectorWindow.update { w1 with inspectors := w1.inspectors ++ [insp] }

/-- `popOrDive(self, event)`: pop when the selection is index 0 (`'self'`),
otherwise dive. -/
def InspectorWindow.popOrDive (w : InspectorWindow) : InspectorWindow × Option PyErr :=
  if w.selectedIndex == some 0 then w.pop else w.dive

/-- `inspect(self)` (the menu command): spawn
`InspectorWindow(inspectorForSelectedPart).open()`.  The result is the
originating window (with any error that escaped) paired with the spawned
window, when one was opened. -/
def InspectorWindow.inspect (w : InspectorWindow) :
    (InspectorWindow × Option PyErr) × Option InspectorWindow :=
  match w.inspectorForSelectedPart with
  | (w1, .error e) => ((w1, some e), none)
  | (w1, .ok none) => ((w1, none), none)
  | (w1, .ok (some insp)) =>
      let opened := (newWindow insp).openWin
      ((w1, opened.2), some opened.1)

/-- `evalCommand(self, event)`, at the point where a nonempty command line
was found after the prompt: build `partDict` (which resolves `selectedPart`,
mutating the top inspector and possibly raising), then call the host `eval`.
The code wraps the call in no try/except, so `evalResult = .error e`
propagates; on success `repr(result)` and a fresh prompt are appended to the
transcript. -/
def InspectorWindow.evalCommand (w : InspectorWindow)
    (evalResult : Except String PyObj) : InspectorWindow × Option PyErr :=
  let r := w.topInspector.selectedPart
  let w1 := w.replaceTop r.1
  match r.2 with
  | none => (w1, some .partNotFound)
  | some _ =>
    match evalResult with
    | .error e => (w1, some (.evalError e))
    | .ok v => ({ w1 with transcript := w1.transcript ++ [v.strForm] }, none)

/-- The module entry point `inspect(anObject)`: build the inspector, wrap it
in a window, open it; a construction failure escapes (`none`). -/
def inspectEntry (o : PyObj) : Option (InspectorWindow × Option PyErr) :=
  (inspectorFor o).map fun insp => (newWindow insp).openWin

/-! ### Auxiliary lemmas -/

theorem charsLe_cons_elim {c d : Char} {cs ds : List Char}
    (h : charsLe (c :: cs) (d :: ds) = true) :
    c.toNat ≤ d.toNat ∧ (c.toNat = d.toNat → charsLe cs ds = true) := by
  by_cases h1 : c.toNat < d.toNat
  · exact ⟨Nat.le_of_lt h1, fun he => absurd he (Nat.ne_of_lt h1)⟩
  · by_cases h2 : d.toNat < c.toNat
    · simp [charsLe, h1, h2] at h
    · have he : c.toNat = d.toNat :=
        Nat.le_antisymm (Nat.le_of_not_lt h2) (Nat.le_of_not_lt h1)
      simp only [charsLe, h1, h2, if_false] at h
      exact ⟨Nat.le_of_eq he, fun _ => h⟩

theorem charsLe_total (a b : List Char) : charsLe a b = true ∨ charsLe b a = true := by
  induction a generalizing b with
  | nil => left; rfl
  | cons c cs ih =>
    cases b with
    | nil => right; rfl
    | cons d ds =>
      by_cases h1 : c.toNat < d.toNat
      · left; simp [charsLe, h1]
      · by_cases h2 : d.toNat < c.toNat
        · right; simp [charsLe, h2]
        · have := ih ds
          simp [charsLe, h1, h2]
          exact this

theorem charsLe_trans (a b c : List Char) (h1 : charsLe a b = true)
    (h2 : charsLe b c = true) : charsLe a c = true := by
  induction a generalizing b c with
  | nil => rfl
  | cons x xs ih =>
    cases b with
    | nil => simp [charsLe] at h1
    | cons y ys =>
      cases c with
      | nil => simp [charsLe] at h2
      | cons z zs =>
        obtain ⟨hxy, hxy2⟩ := charsLe_cons_elim h1
        obtain ⟨hyz, hyz2⟩ := charsLe_cons_elim h2
        by_cases hlt : x.toNat < z.toNat
        · simp [charsLe, hlt]
        · have hxz : x.toNat = z.toNat := by omega
          have hyx : x.toNat = y.toNat := by omega
          have hzx : ¬ z.toNat < x.toNat := by omega
          simp only [charsLe, hlt, hzx, if_false]
          exact ih ys zs (hxy2 hyx) (hyz2 (by omega))

instance : IsTotal String strRel := ⟨fun a b => charsLe_total a.data b.data⟩

instance : IsTrans String strRel := ⟨fun a b c => charsLe_trans a.data b.data c.data⟩

theorem pySorted_sorted (l : List String) : List.Sorted strRel (pySorted l) :=
  List.sorted_insertionSort strRel l

theorem pySorted_perm (l : List String) : (pySorted l).Perm l :=
  List.perm_insertionSort strRel l

instance : IsTotal PartId partKeyRel := ⟨by
  intro a b
  cases a with
  | name sa =>
    cases b with
    | name sb => exact charsLe_total sa.data sb.data
    | idx nb => exact Or.inr rfl
  | idx na =>
    cases b with
    | name sb => exact Or.inl rfl
    | idx nb =>
      rcases Nat.le_total na nb with h | h
      · exact Or.inl (by simpa [partKeyRel, partKeyLe] using h)
      · exact Or.inr (by simpa [partKeyRel, partKeyLe] using h)⟩

instance : IsTrans PartId partKeyRel := ⟨by
  intro a b c h1 h2
  cases a with
  | name sa =>
    cases b with
    | name sb =>
      cases c with
      | name sc => exact charsLe_trans sa.data sb.data sc.data h1 h2
      | idx nc => exact nomatch h2
    | idx nb => exact nomatch h1
  | idx na =>
    cases c with
    | name sc => rfl
    | idx nc =>
      cases b with
      | name sb => exact nomatch h2
      | idx nb =>
        have g1 : na ≤ nb := by simpa [partKeyRel, partKeyLe] using h1
        have g2 : nb ≤ nc := by simpa [partKeyRel, partKeyLe] using h2
        simpa [partKeyRel, partKeyLe] using Nat.le_trans g1 g2⟩

theorem pySortedKeys_eq_some {l ks : List PartId} (h : pySortedKeys l = some ks) :
    ks = List.insertionSort partKeyRel l := by
  unfold pySortedKeys at h
  split at h
  · cases h
  · cases h
    rfl

theorem pySortedKeys_sorted {l ks : List PartId} (h : pySortedKeys l = some ks) :
    List.Sorted partKeyRel ks := by
  rw [pySortedKeys_eq_some h]
  exact List.sorted_insertionSort partKeyRel l

theorem pySortedKeys_perm {l ks : List PartId} (h : pySortedKeys l = some ks) :
    ks.Perm l := by
  rw [pySortedKeys_eq_some h]
  exact List.perm_insertionSort partKeyRel l

theorem mkInspector_fields {v : Variant} {o : PyObj} {insp : Inspector}
    (h : mkInspector v o = some insp) :
    insp.variant = v ∧ insp.object = o ∧ insp.lastPartNumber = 0 := by
  unfold mkInspector at h
  rcases Option.map_eq_some'.1 h with ⟨parts, _, hfn⟩
  rw [← hfn]
  exact ⟨rfl, rfl, rfl⟩

theorem dropLast_append_getLastD {α : Type} (l : List α) (d : α) (h : l ≠ []) :
    l.dropLast ++ [l.getLastD d] = l := by
  induction l using List.reverseRecOn with
  | nil => simp at h
  | append_singleton ys y ih => simp

theorem Inspector.partNumber_fst (insp : Inspector) (n : Nat) :
    (insp.partNumber n).1 = { insp with lastPartNumber := n } := rfl

theorem Inspector.stringForPartNumber_fst (insp : Inspector) (n : Nat) :
    (insp.stringForPartNumber n).1 = { insp with lastPartNumber := n } := rfl

theorem Inspector.lastPartNumber_eta (insp : Inspector) :
    ({ insp with lastPartNumber := insp.lastPartNumber } : Inspector) = insp := rfl

theorem InspectorWindow.replaceTop_self (w : InspectorWindow)
    (h : w.inspectors ≠ []) : w.replaceTop w.topInspector = w := by
  unfold InspectorWindow.replaceTop InspectorWindow.topInspector
  rw [dropLast_append_getLastD w.inspectors defaultInspector h]

theorem InspectorWindow.replaceTop_ne_nil (w : InspectorWindow) (i : Inspector) :
    (w.replaceTop i).inspectors ≠ [] := by
  simp [InspectorWindow.replaceTop]

theorem InspectorWindow.length_replaceTop (w : InspectorWindow) (i : Inspector)
    (h : w.inspectors ≠ []) :
    (w.replaceTop i).inspectors.length = w.inspectors.length := by
  have hp : 0 < w.inspectors.length := List.length_pos.2 h
  simp [InspectorWindow.replaceTop]
  omega

theorem InspectorWindow.listSelectionChanged_eq (w : InspectorWindow) (s : String)
    (hs : (w.topInspector.stringForPartNumber (w.selectedIndex.getD 0)).2 = some s) :
    w.listSelectionChanged =
      ({ w.replaceTop { w.topInspector with
            lastPartNumber := w.selectedIndex.getD 0 } with
          displayedText := some s }, none) := by
  simp only [InspectorWindow.listSelectionChanged, Inspector.stringForPartNumber_fst]
  rw [hs]

theorem InspectorWindow.update_eq (w : InspectorWindow) (s : String)
    (hne : w.inspectors ≠ [])
    (hs : (w.topInspector.stringForPartNumber w.topInspector.lastPartNumber).2 = some s) :
    w.update =
      ({ w with
          displayedTitle := "Inspecting: " ++ w.topInspector.title
          selection := some w.topInspector.lastPartNumber
          displayedText := some s }, none) := by
  simp only [InspectorWindow.topInspector] at hs
  simp only [InspectorWindow.update, InspectorWindow.setTitle,
    Inspector.getLastPartNumber, InspectorWindow.listSelectionChanged,
    InspectorWindow.selectedIndex, InspectorWindow.topInspector,
    InspectorWindow.replaceTop, Inspector.stringForPartNumber_fst,
    Option.getD_some]
  rw [hs]
  simp only [Inspector.lastPartNumber_eta,
    dropLast_append_getLastD w.inspectors defaultInspector hne]

theorem InspectorWindow.update_fail (w : InspectorWindow)
    (hs : (w.topInspector.stringForPartNumber w.topInspector.lastPartNumber).2 = none) :
    (w.update).2 = some .partNotFound := by
  simp only [InspectorWindow.topInspector] at hs
  simp only [InspectorWindow.update, InspectorWindow.setTitle,
    Inspector.getLastPartNumber, InspectorWindow.listSelectionChanged,
    InspectorWindow.selectedIndex, InspectorWindow.topInspector,
    InspectorWindow.replaceTop, Inspector.stringForPartNumber_fst,
    Option.getD_some]
  rw [hs]

theorem InspectorWindow.update_fixed_fields (w : InspectorWindow)
    (hne : w.inspectors ≠ []) (hfix : w.update = (w, none)) :
    w.selection = some w.topInspector.lastPartNumber ∧
    w.displayedTitle = "Inspecting: " ++ w.topInspector.title ∧
    ∃ s, (w.topInspector.stringForPartNumber w.topInspector.lastPartNumber).2 = some s ∧
      w.displayedText = some s := by
  cases hsc : (w.topInspector.stringForPartNumber w.topInspector.lastPartNumber).2 with
  | none =>
    have := InspectorWindow.update_fail w hsc
    rw [hfix] at this
    cases this
  | some s =>
    rw [InspectorWindow.update_eq w s hne hsc] at hfix
    have h1 := congrArg (fun p => p.1.selection) hfix
    have h2 := congrArg (fun p => p.1.displayedTitle) hfix
    have h3 := congrArg (fun p => p.1.displayedText) hfix
    exact ⟨h1.symm, h2.symm, s, rfl, h3.symm⟩

theorem InspectorWindow.listSelectionChanged_fst_inspectors (w : InspectorWindow) :
    (w.listSelectionChanged).1.inspectors =
      w.inspectors.dropLast ++
        [{ w.topInspector with lastPartNumber := w.selectedIndex.getD 0 }] := by
  simp only [InspectorWindow.listSelectionChanged, Inspector.stringForPartNumber_fst]
  cases hsc : (w.topInspector.stringForPartNumber (w.selectedIndex.getD 0)).2 <;>
    simp [InspectorWindow.replaceTop]

theorem InspectorWindow.listSelectionChanged_fst_ne_nil (w : InspectorWindow) :
    (w.listSelectionChanged).1.inspectors ≠ [] := by
  rw [InspectorWindow.listSelectionChanged_fst_inspectors]
  simp

theorem InspectorWindow.update_fst_inspectors (w : InspectorWindow)
    (h : w.inspectors ≠ []) : (w.update).1.inspectors = w.inspectors := by
  unfold InspectorWindow.update
  rw [InspectorWindow.listSelectionChanged_fst_inspectors]
  show w.inspectors.dropLast ++
      [{ w.topInspector with lastPartNumber := w.topInspector.lastPartNumber }] = _
  rw [Inspector.lastPartNumber_eta]
  exact dropLast_append_getLastD w.inspectors defaultInspector h

theorem InspectorWindow.update_fst_ne_nil (w : InspectorWindow) :
    (w.update).1.inspectors ≠ [] := by
  unfold InspectorWindow.update
  exact InspectorWindow.listSelectionChanged_fst_ne_nil _

theorem InspectorWindow.update_fst_selection (w : InspectorWindow) :
    (w.update).1.selection = some w.topInspector.lastPartNumber := by
  unfold InspectorWindow.update
  cases hsc : ((w.setTitle).topInspector.stringForPartNumber
      w.topInspector.lastPartNumber).2 <;>
    simp [InspectorWindow.listSelectionChanged, InspectorWindow.setTitle,
      InspectorWindow.selectedIndex, Inspector.getLastPartNumber,
      InspectorWindow.replaceTop, InspectorWindow.topInspector] at hsc ⊢ <;>
    rw [hsc]

theorem InspectorWindow.inspectorForSelectedPart_fst (w : InspectorWindow) :
    (w.inspectorForSelectedPart).1 = w ∨
    (w.inspectorForSelectedPart).1 =
      w.replaceTop ((w.topInspector.partNumber (w.selectedIndex.getD 0)).1) := by
  simp only [InspectorWindow.inspectorForSelectedPart]
  cases hsel : w.selectedIndex with
  | none => left; rfl
  | some n =>
    right
    simp only [Option.getD_some]
    cases hr : (w.topInspector.partNumber n).2 with
    | none => rfl
    | some part =>
      show (match inspectorFor part with
        | none => (w.replaceTop (w.topInspector.partNumber n).1,
            Except.error PyErr.typeError)
        | some insp => (w.replaceTop (w.topInspector.partNumber n).1,
            Except.ok (some insp))).1 =
        w.replaceTop (w.topInspector.partNumber n).1
      cases inspectorFor part <;> rfl

/-! ### Example objects used by witnesses and counterexamples -/

/-- A Python `int` literal. -/
def pyInt (n : Nat) : PyObj := .mk "int" (toString n) false [] [] []

/-- An instance of a user-defined class `Foo` (type name `Foo`). -/
def fooInstanceObj : PyObj := .mk "Foo" "<Foo object>" false [] [] []

/-- The dict `{'a': 1, 'b': 2}` (attribute table left empty: the reflective
names do not matter to the claims exercised on it). -/
def dictAB : PyObj :=
  .mk "dict" "" false []
    [(PartId.name "a", pyInt 1), (PartId.name "b", pyInt 2)] []

/-- The list `[10, 20, 30]`. -/
def listTens : PyObj :=
  .mk "list" "" false [] [] [pyInt 10, pyInt 20, pyInt 30]

/-- The constructed Dictionary inspector on `dictAB` (its construction
succeeds: the keys are homogeneous strings). -/
def dictABInspector : Inspector := (inspectorFor dictAB).getD defaultInspector

/-- The constructed base inspector on the integer `0`. -/
def intInspector : Inspector := (inspectorFor (pyInt 0)).getD defaultInspector

/-- The string object `'a'`. -/
def strAObj : PyObj := .mk "str" "a" false [] [] []

/-- The dict `{1: 'a', 'b': 2}`: mutually unorderable mixed keys, on which
Python 3 `sorted` raises `TypeError`. -/
def mixedDict : PyObj :=
  .mk "dict" "<dict-mixed>" false []
    [(PartId.idx 1, strAObj), (PartId.name "b", pyInt 2)] []

/-- The list `[{1: 'a', 'b': 2}]` holding the mixed-key dict. -/
def hostListObj : PyObj := .mk "list" "<list-of-dict>" false [] [] [mixedDict]

/-- The list `[[{1: 'a', 'b': 2}]]` used to reach a depth-2 window. -/
def outerListObj : PyObj := .mk "list" "<list-of-list>" false [] [] [hostListObj]

/-- The constructed Sequence inspector on `outerListObj`. -/
def outerInspector : Inspector := (inspectorFor outerListObj).getD defaultInspector

/-- Counterexample to claim C2 as stated: for a complex number (type name
`complex`, derived key `ComplexType`) the registry explicitly selects the
base `'Inspector'`, not `'ComplexInspector'`, so the constructed variant is
the base one. -/
theorem c2_counterexample :
    inspectorMapLookup "ComplexType" = some "Inspector" ∧
    inspectorNameForTypeName "complex" = "Inspector" ∧
    (inspectorFor (PyObj.mk "complex" "(1+0j)" false [] [] [])).map Inspector.variant =
      some Variant.Inspector ∧
    Variant.Inspector ≠ Variant.ComplexInspector := by
  refine ⟨by decide, by decide, rfl, by decide⟩

/-- Claim C2, amended.  Under the Python 3 type names the code runs on
(`module`, `function`, `method`, `builtin_function_or_method`, `code`,
`dict`, `list`, `tuple`, `slice`, `type`, `complex`, `str`, and a
user-defined class name such as `Foo`), the registry key — the capitalized
type name suffixed `'Type'` — selects: ModuleInspector for modules,
FunctionInspector for plain functions, bound methods and builtins,
CodeInspector for code objects, DictionaryInspector for dicts,
SequenceInspector for lists and tuples, and SliceInspector for slices.
Contrary to the claim, classes (key `TypeType`) and complex numbers (key
`ComplexType`) are explicitly mapped to the base Inspector, and instances
of user-defined classes (key `FooType`) and strings (key `StrType`) miss
the registry and fall back to the base Inspector. -/
theorem c2_variant_selection :
    typeKeyFor "module" = "ModuleType" ∧
    typeKeyFor "complex" = "ComplexType" ∧
    (inspectorFor (PyObj.mk "module" "" false [] [] [])).map Inspector.variant =
      some Variant.ModuleInspector ∧
    (inspectorFor (PyObj.mk "function" "" true [] [] [])).map Inspector.variant =
      some Variant.FunctionInspector ∧
    (inspectorFor (PyObj.mk "method" "" true [] [] [])).map Inspector.variant =
      some Variant.FunctionInspector ∧
    (inspectorFor (PyObj.mk "builtin_function_or_method" "" true [] [] [])).map
      Inspector.variant = some Variant.FunctionInspector ∧
    (inspectorFor (PyObj.mk "code" "" false [] [] [])).map Inspector.variant =
      some Variant.CodeInspector ∧
    (inspectorFor dictAB).map Inspector.variant = some Variant.DictionaryInspector ∧
    (inspectorFor listTens).map Inspector.variant = some Variant.SequenceInspector ∧
    (inspectorFor (PyObj.mk "tuple" "" false [] [] [])).map Inspector.variant =
      some Variant.SequenceInspector ∧
    (inspectorFor (PyObj.mk "slice" "" false [] [] [])).map Inspector.variant =
      some Variant.SliceInspector ∧
    (inspectorFor (PyObj.mk "type" "" true [] [] [])).map Inspector.variant =
      some Variant.Inspector ∧
    (inspectorFor (PyObj.mk "complex" "" false [] [] [])).map Inspector.variant =
      some Variant.Inspector ∧
    (inspectorFor (PyObj.mk "str" "abc" false [] [] [])).map Inspector.variant =
      some Variant.Inspector ∧
    (inspectorFor fooInstanceObj).map Inspector.variant = some Variant.Inspector := by
  refine ⟨by decide, by decide, rfl, rfl, rfl, rfl, rfl, rfl, rfl, rfl, rfl,
    rfl, rfl, rfl, rfl⟩

/-- Claim C3: for every inspector and in-range index `n`, `partNumber(0)`
returns the wrapped object; for `n ≥ 1` the `(n-1)`th parts-list entry is
resolved — by attribute lookup in the base variants; in the Dictionary
variant by keyed lookup when the entry is a present key, otherwise attribute
lookup; in the Sequence variant by element indexing when the entry is an
integer, otherwise attribute lookup — and `n` is recorded as the
last-selected index. -/
theorem c3_partNumber_resolution (insp : Inspector) (n : Nat)
    (hn : 1 ≤ n) :
    (insp.partNumber 0).2 = some insp.object ∧
    (insp.partNumber n).1.lastPartNumber = n ∧
    (insp.partNumber n).2 =
      (insp.partsList.get? (n - 1)).bind (fun p =>
        match insp.variant, p with
        | Variant.DictionaryInspector, q =>
            if pyDictContains insp.object q then pyDictGet insp.object q
            else getattrPart insp.object q
        | Variant.SequenceInspector, PartId.idx i => pySeqGet insp.object i
        | Variant.SequenceInspector, PartId.name s => pyGetattr insp.object s
        | _, q => getattrPart insp.object q) := by
  refine ⟨rfl, rfl, ?_⟩
  have hn0 : ¬ n = 0 := by omega
  simp only [Inspector.partNumber, Inspector.privatePartNumber]
  rw [if_neg hn0]
  cases hget : insp.partsList.get? (n - 1) with
  | none => rfl
  | some q => cases insp.variant <;> cases q <;> rfl

/-- Witness for C3: the Dictionary inspector on `{'a': 1, 'b': 2}` — index 0
yields the dict itself, index 1 resolves the first sorted key `'a'` to `1`
by keyed lookup and records 1 as the last-selected index. -/
theorem c3_witness :
    (dictABInspector.partNumber 0).2 = some dictAB ∧
    (dictABInspector.partNumber 1).1.lastPartNumber = 1 ∧
    (dictABInspector.partNumber 1).2 = some (pyInt 1) :=
  c3_partNumber_resolution dictABInspector 1 (by decide)

/-- Claim C4: the parts sequence is fixed at construction: the base portion
is `namedParts()` sorted lexicographically (the sort really sorts: it is a
`strRel`-sorted permutation of `namedParts`); the Dictionary variant appends
the sorted keys (a `partKeyRel`-sorted permutation of the key list, whenever
the key sort succeeds) and the Sequence variant appends the indices
`0..len-1` after the reflective parts; `partNames()` is the literal `"up"`
followed by the string forms of the entries in order; and `partNumber` (the
only mutating operation) never changes either list. -/
theorem c4_partsList_construction (v : Variant) (o : PyObj) (n : Nat)
    (insp : Inspector) (h : mkInspector v o = some insp) :
    insp.partsList =
      (pySorted (namedParts v o)).map PartId.name ++
        (match v with
         | Variant.DictionaryInspector =>
             (pySortedKeys (o.items.map (fun kv => kv.1))).getD []
         | Variant.SequenceInspector =>
             (List.range o.elems.length).map PartId.idx
         | _ => []) ∧
    List.Sorted strRel (pySorted (namedParts v o)) ∧
    (pySorted (namedParts v o)).Perm (namedParts v o) ∧
    (∀ ks, pySortedKeys (o.items.map (fun kv => kv.1)) = some ks →
      List.Sorted partKeyRel ks ∧ ks.Perm (o.items.map (fun kv => kv.1))) ∧
    insp.partNames = "up" :: insp.partsList.map partIdStr ∧
    ((insp.partNumber n).1.partsList = insp.partsList ∧
     (insp.partNumber n).1.partNames = insp.partNames) := by
  unfold mkInspector at h
  rcases Option.map_eq_some'.1 h with ⟨parts, hinit, hfn⟩
  subst hfn
  refine ⟨?_, pySorted_sorted _, pySorted_perm _,
    fun ks hks => ⟨pySortedKeys_sorted hks, pySortedKeys_perm hks⟩, rfl, rfl, rfl⟩
  show parts = _
  cases v
  case DictionaryInspector =>
    simp only [initializePartsList] at hinit
    rcases Option.map_eq_some'.1 hinit with ⟨ks, hks, hg⟩
    subst hg
    rw [hks]
    simp [basePartsList]
  all_goals
    (simp only [initializePartsList] at hinit
     cases hinit
     simp [basePartsList])

/-- Witness for C4 at the concrete Dictionary inspector on `{'a':1,'b':2}`:
the parts list is the sorted reflective names followed by the sorted keys,
and the part names are `"up"` followed by the entries' string forms. -/
theorem c4_witness :
    dictABInspector.partsList =
      (pySorted (namedParts Variant.DictionaryInspector dictAB)).map PartId.name ++
        (pySortedKeys (dictAB.items.map (fun kv => kv.1))).getD [] ∧
    dictABInspector.partNames = "up" :: dictABInspector.partsList.map partIdStr := by
  have h := c4_partsList_construction Variant.DictionaryInspector dictAB 0
    dictABInspector rfl
  exact ⟨h.1, h.2.2.2.2.1⟩

/-- Claim C10: `partNumber` assigns its argument to `lastPartNumber` before
attempting resolution, so even when resolution fails (`none`), the recorded
index has already been updated — and nothing besides `lastPartNumber`
changed. -/
theorem c10_partNumber_not_atomic (insp : Inspector) (n : Nat) :
    (insp.partNumber n).1.lastPartNumber = n ∧
    ((insp.partNumber n).2 = none →
      (insp.partNumber n).1 = { insp with lastPartNumber := n }) :=
  ⟨rfl, fun _ => rfl⟩

/-- Witness for C10: resolving the out-of-range index 1 on the base
inspector of the integer `0` (whose parts list is empty) fails, yet the
last-selected index is 1 afterwards. -/
theorem c10_witness :
    (intInspector.partNumber 1).2 = none ∧
    (intInspector.partNumber 1).1.lastPartNumber = 1 ∧
    (intInspector.partNumber 1).1 = { intInspector with lastPartNumber := 1 } :=
  ⟨rfl, (c10_partNumber_not_atomic intInspector 1).1,
    (c10_partNumber_not_atomic intInspector 1).2 rfl⟩

theorem InspectorWindow.dive_fst_ne_nil (w : InspectorWindow)
    (h : w.inspectors ≠ []) : (w.dive).1.inspectors ≠ [] := by
  have hc := InspectorWindow.inspectorForSelectedPart_fst w
  simp only [InspectorWindow.dive]
  rcases hd : w.inspectorForSelectedPart with ⟨w1, e⟩
  rw [hd] at hc
  have hc' : w1 = w ∨
      w1 = w.replaceTop ((w.topInspector.partNumber (w.selectedIndex.getD 0)).1) := hc
  have hw1 : w1.inspectors ≠ [] := by
    rcases hc' with hq | hq
    · rw [hq]; exact h
    · rw [hq]; exact InspectorWindow.replaceTop_ne_nil w _
  cases e with
  | error err => exact hw1
  | ok oi =>
    cases oi with
    | none => exact hw1
    | some insp => exact InspectorWindow.update_fst_ne_nil _

theorem InspectorWindow.inspect_fst_ne_nil (w : InspectorWindow)
    (h : w.inspectors ≠ []) : (w.inspect).1.1.inspectors ≠ [] := by
  have hc := InspectorWindow.inspectorForSelectedPart_fst w
  simp only [InspectorWindow.inspect]
  rcases hd : w.inspectorForSelectedPart with ⟨w1, e⟩
  rw [hd] at hc
  have hc' : w1 = w ∨
      w1 = w.replaceTop ((w.topInspector.partNumber (w.selectedIndex.getD 0)).1) := hc
  have hw1 : w1.inspectors ≠ [] := by
    rcases hc' with hq | hq
    · rw [hq]; exact h
    · rw [hq]; exact InspectorWindow.replaceTop_ne_nil w _
  cases e with
  | error err => exact hw1
  | ok oi => cases oi with
    | none => exact hw1
    | some insp => exact hw1

/-- Claim C6: the stack is a one-element list at construction and stays
non-empty through pop, dive, inspect and selection-change; pop on a stack of
depth 1 is a complete no-op, and pop on greater depth removes exactly the
top inspector. -/
theorem c6_stack_invariant (i : Inspector) (w : InspectorWindow) :
    (newWindow i).inspectors = [i] ∧
    (w.inspectors ≠ [] →
      (w.pop).1.inspectors ≠ [] ∧
      (w.dive).1.inspectors ≠ [] ∧
      (w.inspect).1.1.inspectors ≠ [] ∧
      (w.listSelectionChanged).1.inspectors ≠ []) ∧
    (w.inspectors.length = 1 → w.pop = (w, none)) ∧
    (1 < w.inspectors.length → (w.pop).1.inspectors = w.inspectors.dropLast) := by
  refine ⟨rfl, fun h => ⟨?_, InspectorWindow.dive_fst_ne_nil w h,
      InspectorWindow.inspect_fst_ne_nil w h,
      InspectorWindow.listSelectionChanged_fst_ne_nil w⟩, ?_, ?_⟩
  · by_cases hl : w.inspectors.length > 1
    · unfold InspectorWindow.pop
      rw [if_pos hl]
      exact InspectorWindow.update_fst_ne_nil _
    · unfold InspectorWindow.pop
      rw [if_neg hl]
      exact h
  · intro h1
    unfold InspectorWindow.pop
    rw [if_neg (by omega)]
  · intro h1
    unfold InspectorWindow.pop
    rw [if_pos h1]
    have hd : (w.inspectors.dropLast) ≠ [] := by
      intro hcon
      have := congrArg List.length hcon
      simp at this
      omega
    exact InspectorWindow.update_fst_inspectors
      { w with inspectors := w.inspectors.dropLast } hd

/-- Witness for C6 at a concrete depth-1 window on the dict `{'a':1,'b':2}`:
its stack is the one-element list, pop is a no-op, and the stack stays
non-empty. -/
theorem c6_witness :
    (newWindow dictABInspector).inspectors = [dictABInspector] ∧
    ((newWindow dictABInspector).pop).1.inspectors ≠ [] ∧
    (newWindow dictABInspector).pop = (newWindow dictABInspector, none) := by
  have h := c6_stack_invariant dictABInspector (newWindow dictABInspector)
  have hne : (newWindow dictABInspector).inspectors ≠ [] := by
    intro hcon
    exact absurd (h.1 ▸ hcon) (by simp)
  exact ⟨h.1, (h.2.1 hne).1, h.2.2.1 (by rw [h.1]; rfl)⟩

/-- A depth-1 window on the base inspector of the integer `0`, as it stands
right after construction. -/
def evalWin : InspectorWindow := newWindow intInspector

/-- Counterexample to claim C5 as stated: at the concrete window `evalWin`,
an error raised by the host `eval` is not caught by `evalCommand` — it
escapes as the error component — and nothing is appended to the transcript,
contrary to "caught and shown as text inline in the transcript". -/
theorem c5_counterexample :
    (evalWin.evalCommand (Except.error "SyntaxError: invalid syntax")).2 =
      some (PyErr.evalError "SyntaxError: invalid syntax") ∧
    (evalWin.evalCommand (Except.error "SyntaxError: invalid syntax")).1.transcript =
      evalWin.transcript := ⟨rfl, rfl⟩

/-- Claim C5, amended: `evalCommand` wraps the host `eval` call in no
try/except, so an error raised during evaluation propagates to the caller
uncaught; nothing is appended to the transcript, and the window — in
particular its navigation stack — is left exactly as it was. -/
theorem c5_eval_error_propagates (w : InspectorWindow) (e : String)
    (hne : w.inspectors ≠ [])
    (hres : (w.topInspector.partNumber w.topInspector.lastPartNumber).2 ≠ none) :
    w.evalCommand (Except.error e) = (w, some (PyErr.evalError e)) := by
  simp only [InspectorWindow.evalCommand, Inspector.selectedPart,
    Inspector.getLastPartNumber, Inspector.partNumber_fst]
  cases hr : (w.topInspector.partNumber w.topInspector.lastPartNumber).2 with
  | none => exact absurd hr hres
  | some part =>
    rw [Inspector.lastPartNumber_eta, InspectorWindow.replaceTop_self w hne]

/-- Witness for C5 (amended) at the concrete window `evalWin` and a concrete
eval failure. -/
theorem c5_witness :
    evalWin.evalCommand (Except.error "NameError: name 'x' is not defined") =
      (evalWin, some (PyErr.evalError "NameError: name 'x' is not defined")) :=
  c5_eval_error_propagates evalWin "NameError: name 'x' is not defined"
    (fun h => nomatch h) (fun h => nomatch h)

theorem InspectorWindow.pop_length_le (w : InspectorWindow) :
    (w.pop).1.inspectors.length ≤ w.inspectors.length := by
  by_cases hl : w.inspectors.length > 1
  · unfold InspectorWindow.pop
    rw [if_pos hl]
    have hd : w.inspectors.dropLast ≠ [] := by
      intro hc
      have := congrArg List.length hc
      simp at this
      omega
    rw [InspectorWindow.update_fst_inspectors _ hd]
    simp
  · unfold InspectorWindow.pop
    rw [if_neg hl]

/-- Claim C8: activating the list entry with index 0 selected performs Pop,
not Dive (hence the stack never grows there); with any other selection it
performs Dive. -/
theorem c8_popOrDive (w : InspectorWindow) :
    (w.selection = some 0 →
      w.popOrDive = w.pop ∧
      (w.popOrDive).1.inspectors.length ≤ w.inspectors.length) ∧
    (w.selection ≠ some 0 → w.popOrDive = w.dive) := by
  constructor
  · intro h
    have hcond : (w.selectedIndex == some 0) = true := by
      simp [InspectorWindow.selectedIndex, h]
    have heq : w.popOrDive = w.pop := by
      unfold InspectorWindow.popOrDive
      rw [if_pos hcond]
    exact ⟨heq, heq ▸ InspectorWindow.pop_length_le w⟩
  · intro h
    have hcond : ¬ (w.selectedIndex == some 0) = true := by
      simp [InspectorWindow.selectedIndex]
      exact h
    unfold InspectorWindow.popOrDive
    rw [if_neg hcond]

/-- The window of `c8_witness`/`c9_witness`: a depth-1 window on the dict
inspector with list index 0 (`self`) selected. -/
def winSel0 : InspectorWindow :=
  { newWindow dictABInspector with selection := some 0 }

/-- Witness for C8 at the concrete window `winSel0` (index 0 selected):
activating pops, and the stack does not grow. -/
theorem c8_witness :
    winSel0.popOrDive = winSel0.pop ∧
    (winSel0.popOrDive).1.inspectors.length ≤ winSel0.inspectors.length :=
  (c8_popOrDive winSel0).1 rfl

/-- Claim C9: the Inspect (spawn) command never changes the originating
window's stack depth, selection or transcript, and the spawned window, when
one is opened, has a fresh one-element stack. -/
theorem c9_inspect_frame (w : InspectorWindow) (hne : w.inspectors ≠ []) :
    (w.inspect).1.1.inspectors.length = w.inspectors.length ∧
    (w.inspect).1.1.selection = w.selection ∧
    (w.inspect).1.1.transcript = w.transcript ∧
    (∀ w2, (w.inspect).2 = some w2 → w2.inspectors.length = 1) := by
  have hc := InspectorWindow.inspectorForSelectedPart_fst w
  simp only [InspectorWindow.inspect]
  rcases hd : w.inspectorForSelectedPart with ⟨w1, e⟩
  rw [hd] at hc
  have hc' : w1 = w ∨
      w1 = w.replaceTop ((w.topInspector.partNumber (w.selectedIndex.getD 0)).1) := hc
  have hlen : w1.inspectors.length = w.inspectors.length := by
    rcases hc' with hq | hq
    · rw [hq]
    · rw [hq]
      exact InspectorWindow.length_replaceTop w _ hne
  have hsel : w1.selection = w.selection := by
    rcases hc' with hq | hq
    · rw [hq]
    · rw [hq]; rfl
  have htr : w1.transcript = w.transcript := by
    rcases hc' with hq | hq
    · rw [hq]
    · rw [hq]; rfl
  cases e with
  | error err => exact ⟨hlen, hsel, htr, fun w2 hw2 => nomatch hw2⟩
  | ok oi =>
    cases oi with
    | none => exact ⟨hlen, hsel, htr, fun w2 hw2 => nomatch hw2⟩
    | some insp =>
      refine ⟨hlen, hsel, htr, fun w2 hw2 => ?_⟩
      have hw2' : w2 = ((newWindow insp).openWin).1 := by
        cases hw2
        rfl
      rw [hw2']
      have hn1 : (newWindow insp).inspectors ≠ [] := by
        simp [newWindow]
      show ((newWindow insp).update).1.inspectors.length = 1
      rw [InspectorWindow.update_fst_inspectors _ hn1]
      rfl

/-- Witness for C9 at the concrete window `winSel0`: the spawn leaves the
originating window's depth and selection intact, and the spawned window has
depth 1. -/
theorem c9_witness :
    (winSel0.inspect).1.1.inspectors.length = winSel0.inspectors.length ∧
    (winSel0.inspect).1.1.selection = winSel0.selection ∧
    ∀ w2, (winSel0.inspect).2 = some w2 → w2.inspectors.length = 1 := by
  have h := c9_inspect_frame winSel0 (fun hc => nomatch hc)
  exact ⟨h.1, h.2.1, h.2.2.2⟩

/-- The window of `c7_counterexample`: open a window on `[[{1:'a','b':2}]]`,
select the single element and dive into `[{1:'a','b':2}]` (depth 2), then
select its single element — a reachable, refreshed depth-2 state whose
selected part's value is the mixed-key dict. -/
def c7BadWin : InspectorWindow :=
  (InspectorWindow.listSelectionChanged
    { ((InspectorWindow.dive
        { ((newWindow outerInspector).openWin).1 with selection := some 1 }).1)
      with selection := some 1 }).1

/-- Counterexample to claim C7 as stated: at the reachable refreshed depth-2
window `c7BadWin` with a part selected, Dive does not succeed — building the
inspector for the selected part's value `{1:'a','b':2}` raises `TypeError`
inside `inspectorFor` (line 426), leaving the stack unchanged — and the
following Pop then drops a level (depth 2 to 1) instead of restoring the
pre-dive state. -/
theorem c7_counterexample :
    c7BadWin.inspectors.length = 2 ∧
    c7BadWin.update = (c7BadWin, none) ∧
    (c7BadWin.dive).2 = some PyErr.typeError ∧
    (c7BadWin.dive).1 = c7BadWin ∧
    (((c7BadWin.dive).1).pop).1.inspectors.length = 1 :=
  ⟨rfl, rfl, rfl, rfl, rfl⟩

/-- Claim C7, amended: from any refreshed window state (a fixed point of
`update`, which is how every transition leaves the window) with a part
selected, whenever the inspector for the selected part's value can be
constructed (`inspectorFor` succeeds — it can instead raise, e.g. on a
mixed-key dict value, in which case Dive propagates the error with the
stack unchanged and no round trip happens), Dive succeeds, grows the stack
by exactly one, and a following Pop restores the window exactly: the same
inspector stack, displayed title, selection and value text. -/
theorem c7_dive_pop_roundtrip (w : InspectorWindow)
    (hne : w.inspectors ≠ [])
    (hfix : w.update = (w, none))
    (hbuild : ∀ part,
      (w.topInspector.partNumber w.topInspector.lastPartNumber).2 = some part →
      (inspectorFor part).isSome = true) :
    (w.dive).2 = none ∧
    (w.dive).1.inspectors.length = w.inspectors.length + 1 ∧
    ((w.dive).1).pop = (w, none) := by
  obtain ⟨hsel, htitle, s, hs, htext⟩ := InspectorWindow.update_fixed_fields w hne hfix
  have hpart : ∃ part,
      (w.topInspector.partNumber w.topInspector.lastPartNumber).2 = some part := by
    have h' := hs
    simp only [Inspector.stringForPartNumber] at h'
    rcases Option.map_eq_some'.1 h' with ⟨part, hp, _⟩
    exact ⟨part, hp⟩
  obtain ⟨part, hp⟩ := hpart
  obtain ⟨insp, hins⟩ := Option.isSome_iff_exists.1 (hbuild part hp)
  obtain ⟨hvar, hobj, hlast⟩ := mkInspector_fields
    (show mkInspector (variantOfName (inspectorNameForTypeName part.typeName)) part
      = some insp from hins)
  have hifsp : w.inspectorForSelectedPart = (w, Except.ok (some insp)) := by
    simp only [InspectorWindow.inspectorForSelectedPart, InspectorWindow.selectedIndex]
    rw [hsel]
    simp only [Option.getD_some, Inspector.partNumber_fst, hp, hins]
    rw [Inspector.lastPartNumber_eta, InspectorWindow.replaceTop_self w hne]
  have hdive_eq : w.dive =
      InspectorWindow.update { w with inspectors := w.inspectors ++ [insp] } := by
    simp only [InspectorWindow.dive]
    rw [hifsp]
  set v : InspectorWindow :=
    { w with inspectors := w.inspectors ++ [insp] } with hv
  have hvne : v.inspectors ≠ [] := by simp [hv]
  have hvtop : v.topInspector = insp := by
    simp [hv, InspectorWindow.topInspector]
  have hvs : (v.topInspector.stringForPartNumber v.topInspector.lastPartNumber).2
      = some (renderPart part) := by
    rw [hvtop, hlast]
    simp [Inspector.stringForPartNumber, Inspector.partNumber, hobj]
  set w1 : InspectorWindow :=
    { v with
        displayedTitle := "Inspecting: " ++ v.topInspector.title
        selection := some v.topInspector.lastPartNumber
        displayedText := some (renderPart part) } with hw1
  have hdive : w.dive = (w1, none) := by
    rw [hdive_eq, InspectorWindow.update_eq v (renderPart part) hvne hvs]
  have hdfst : (w.dive).1 = w1 := by rw [hdive]
  have hlenw : 0 < w.inspectors.length := List.length_pos.2 hne
  have hw1len : w1.inspectors.length = w.inspectors.length + 1 := by
    simp [hw1, hv]
  refine ⟨by rw [hdive], by rw [hdfst, hw1len], ?_⟩
  rw [hdfst]
  have hl : 1 < w1.inspectors.length := by omega
  unfold InspectorWindow.pop
  rw [if_pos hl]
  have hdl : ({ w1 with inspectors := w1.inspectors.dropLast } : InspectorWindow)
      = { w1 with inspectors := w.inspectors } := by
    have : w1.inspectors.dropLast = w.inspectors := by
      simp [hw1, hv]
    rw [this]
  rw [hdl]
  have hw2ne : ({ w1 with inspectors := w.inspectors } : InspectorWindow).inspectors ≠ [] := hne
  have hw2s : (({ w1 with inspectors := w.inspectors } : InspectorWindow).topInspector.stringForPartNumber
      ({ w1 with inspectors := w.inspectors } : InspectorWindow).topInspector.lastPartNumber).2
      = some s := hs
  rw [InspectorWindow.update_eq _ s hw2ne hw2s]
  refine Prod.ext ?_ rfl
  apply InspectorWindow.ext
  · rfl
  · exact hsel.symm
  · exact htitle.symm
  · exact htext.symm
  · rfl

/-- The window of `c7_witness`: the window opened on the dict `{'a':1,'b':2}`
after the user selects list index 1 (the key `'a'`) — a refreshed state with
a part selected, whose selected part's value (`1`) is constructible. -/
def c7Win : InspectorWindow :=
  (InspectorWindow.listSelectionChanged
    { ((newWindow dictABInspector).openWin).1 with selection := some 1 }).1

/-- Witness for C7 (amended) at the concrete window `c7Win`: dive succeeds,
deepens the stack from 1 to 2, and pop restores the window exactly. -/
theorem c7_witness :
    c7Win.inspectors ≠ [] ∧
    c7Win.update = (c7Win, none) ∧
    (c7Win.dive).2 = none ∧
    (c7Win.dive).1.inspectors.length = c7Win.inspectors.length + 1 ∧
    ((c7Win.dive).1).pop = (c7Win, none) := by
  have hne : c7Win.inspectors ≠ [] := fun h => nomatch h
  have hfix : c7Win.update = (c7Win, none) := rfl
  have hb : ∀ part,
      (c7Win.topInspector.partNumber c7Win.topInspector.lastPartNumber).2 = some part →
      (inspectorFor part).isSome = true := by
    intro part hq
    have h2 : pyInt 1 = part := Option.some.inj hq
    rw [← h2]
    rfl
  have h := c7_dive_pop_roundtrip c7Win hne hfix hb
  exact ⟨hne, hfix, h.1, h.2.1, h.2.2⟩
